import Mathlib

/-!
Shallow embedding of the playback scheduling and streaming-process
supervision engine of the `music-twitch` repository.

The embedded code:
  * `src/src/services/streamer.ts` — `StreamerService` (ffmpeg process
    lifecycle: `streamFile`, `streamPlaylist`, `stop`, exit handling,
    argument construction, `isAudioFile`, quality presets);
  * `src/src/services/queue.ts` — `QueueService` (`enqueue`, `skip`,
    `stop`, `playNext`, `playStandby`, auto-playlist config);
  * `src/src/services/downloader.ts` — `DownloaderService.getDuration`;
  * `src/unnamed/part_003` (second class in the file) — the persistence
    variant of `QueueService` (`loadState` and its auto-resume timer).

External collaborators (filesystem, yt-dlp, ffprobe, the spawned ffmpeg
process, the AI playlist generator and the YouTube service) are modelled
as an explicit environment record: the scheduler only observes their
success/failure results, which is exactly the interface the TypeScript
code consumes.  All JavaScript execution is single-threaded and every
`await` inside the scheduler is sequential, so each public operation is
embedded as a state-transformation function.
-/

namespace MusicTwitch

/-- `AllowedSource` from `src/src/types.ts`: tagged source of an item. -/
inductive AllowedSource where
  | local_file (path : String)
  | youtube_url (url : String)
  deriving DecidableEq, Repr

/-- `EnqueuedItem` from `src/src/types.ts`: an `AllowedItem`
(`key`, `title`, `source`) together with `requestedBy`. -/
structure EnqueuedItem where
  key : String
  title : String
  source : AllowedSource
  requestedBy : String
  deriving DecidableEq, Repr

/-! ## StreamerService process model (`src/src/services/streamer.ts`)

`StreamerService` holds a single field `currentProcess : ChildProcess |
null`.  To make the "at most one live process" invariant meaningful the
embedding also keeps a ledger of every process ever spawned and of every
process that has been stopped (sent SIGTERM by `stop()`) or has closed:
`currentProcess` is the pid of the handle, `spawned` records each spawn
with the file and loop flag it was started on, and `dead` records pids
that were signalled or whose `close` event ran.  A process is *live*
when it was spawned and is not in `dead`. -/

/-- One spawned ffmpeg process: its pid and the `streamFile` arguments
it was started with. -/
structure ProcRec where
  pid : Nat
  file : String
  loop : Bool
  deriving DecidableEq, Repr

/-- The `StreamerService` state: the `currentProcess` handle plus the
spawn/termination ledger. -/
structure StreamerSt where
  currentProcess : Option Nat
  nextPid : Nat
  spawned : List ProcRec
  dead : List Nat
  deriving DecidableEq, Repr

/-- Fresh `StreamerService` (constructor: `currentProcess = null`). -/
def StreamerSt.init : StreamerSt :=
  { currentProcess := none, nextPid := 0, spawned := [], dead := [] }

/-- Processes that were spawned and have been neither stopped nor
closed. -/
def StreamerSt.live (s : StreamerSt) : List ProcRec :=
  s.spawned.filter (fun p => !(s.dead.contains p.pid))

/-- `StreamerService.stop()` (streamer.ts lines 674–691): if a process
handle is held, send SIGTERM and wait (bounded by 3 s), then clear the
handle; a no-op when `currentProcess` is `null`. -/
def streamerStop (s : StreamerSt) : StreamerSt :=
  match s.currentProcess with
  | none => s
  | some p => { s with currentProcess := none, dead := p :: s.dead }

/-- The spawn step inside `streamFile`/`streamPlaylist`: `this.currentProcess
= spawn(FFMPEG_PATH, args, ...)` — a new process becomes the handle. -/
def spawnProc (s : StreamerSt) (file : String) (loop : Bool) : StreamerSt :=
  { s with
    currentProcess := some s.nextPid
    nextPid := s.nextPid + 1
    spawned := ⟨s.nextPid, file, loop⟩ :: s.spawned }

/-- `StreamerService.streamFile(filePath, loop)` (streamer.ts lines
521–669) at the process-lifecycle level: first `await this.stop()`, then
spawn ffmpeg on the file.  `ok` abstracts whether the process is still
alive when the 2-second startup timer fires (promise resolves) or
instead exits early with an unexpected code (promise rejects and the
`close` handler clears the handle). -/
def streamFileProc (s : StreamerSt) (file : String) (loop : Bool)
    (ok : Bool) : Except String StreamerSt :=
  let s1 := spawnProc (streamerStop s) file loop
  if ok then .ok s1
  else .error "FFmpeg exited"

/-- The state left behind when `streamFileProc` rejects: the `close`
handler has run (`this.currentProcess = null`) and the process is dead. -/
def streamFileProcFail (s : StreamerSt) (file : String) (loop : Bool) :
    StreamerSt :=
  let s1 := spawnProc (streamerStop s) file loop
  { s1 with currentProcess := none, dead := s.nextPid :: s1.dead }

/-- Combined effect of `streamFile` on the streamer state together with
the promise outcome. -/
def streamFileStep (s : StreamerSt) (file : String) (loop : Bool)
    (ok : Bool) : StreamerSt × Bool :=
  if ok then (spawnProc (streamerStop s) file loop, true)
  else (streamFileProcFail s file loop, false)

/-- The `close`-event handler registered by `streamFile`
(streamer.ts lines 646–659): `this.currentProcess = null`, and the pid is
dead (the process exited). -/
def streamerOnClose (s : StreamerSt) : StreamerSt :=
  match s.currentProcess with
  | none => s
  | some p => { s with currentProcess := none, dead := p :: s.dead }

/-- Exit-code handling of `streamFile`'s `close` handler (streamer.ts
lines 653–658) and identically of `streamPlaylist` (lines 501–505): the
in-flight promise resolves iff the exit code is 0 or 255, otherwise it
rejects with a process-failure error. -/
def ffmpegExitOutcome (code : Int) : Except String Unit :=
  if code = 0 ∨ code = 255 then .ok ()
  else .error "FFmpeg exited with unexpected code"

/-- The operations through which any caller can mutate the
`StreamerService` process state, plus the asynchronous `close` event of
the current process.  `ok` abstracts whether the spawned process
survives its startup window. -/
inductive StreamerOp where
  | opStreamFile (file : String) (loop : Bool) (ok : Bool)
  | opStreamPlaylist (ok : Bool)
  | opStop
  | opClose
  deriving DecidableEq, Repr

/-- `streamPlaylist` (streamer.ts lines 449–516) spawns ffmpeg on the
concat playlist file after `await this.stop()`; process-lifecycle-wise it
is `streamFile` on the playlist path without looping. -/
def streamerStep (s : StreamerSt) : StreamerOp → StreamerSt
  | .opStreamFile file loop ok => (streamFileStep s file loop ok).1
  | .opStreamPlaylist ok => (streamFileStep s "playlist.txt" false ok).1
  | .opStop => streamerStop s
  | .opClose => streamerOnClose s

/-- Run a sequence of streamer operations from a state. -/
def runStreamer (s : StreamerSt) : List StreamerOp → StreamerSt
  | [] => s
  | op :: ops => runStreamer (streamerStep s op) ops

/-- Inductive invariant of the streamer state: pids are bounded by
`nextPid` and pairwise distinct, every live process is the one the
handle points to, and the handle pid is bounded. -/
structure SInv (s : StreamerSt) : Prop where
  spawnedLt : ∀ p ∈ s.spawned, p.pid < s.nextPid
  deadLt : ∀ d ∈ s.dead, d < s.nextPid
  handleLt : ∀ q, s.currentProcess = some q → q < s.nextPid
  handleCover : ∀ p ∈ s.spawned, p.pid ∉ s.dead → s.currentProcess = some p.pid
  nodupPids : (s.spawned.map ProcRec.pid).Nodup

/-! ## QueueService (`src/src/services/queue.ts`)

The scheduler state mirrors the private fields of `QueueService`.  The
`timer` field holds the delay (milliseconds) of the armed `setTimeout`;
the only callback the code ever arms is `() => this.playNext()`
(queue.ts lines 244–246), embedded as `timerFire` below.  The
`playedSongs : Set<string>` is embedded as a list of strings. -/

/-- `AllowedItem` from `src/src/types.ts`. -/
structure AllowedItem where
  key : String
  title : String
  source : AllowedSource
  deriving DecidableEq, Repr

/-- `{ ...item, requestedBy: user }` (queue.ts line 48). -/
def AllowedItem.enqueuedBy (item : AllowedItem) (user : String) :
    EnqueuedItem :=
  ⟨item.key, item.title, item.source, user⟩

/-- `AutoPlaylistConfig` from queue.ts lines 12–17. -/
structure AutoPlaylistConfig where
  enabled : Bool
  description : String
  songsPerBatch : Nat
  playedSongs : List String
  deriving DecidableEq, Repr

/-- The private fields of `QueueService` (queue.ts lines 20–30),
together with the owned `StreamerService` state. -/
structure QSt where
  queue : List EnqueuedItem
  current : Option EnqueuedItem
  timer : Option Int
  isProcessing : Bool
  isPlayingStandby : Bool
  autoPlaylist : AutoPlaylistConfig
  streamer : StreamerSt
  deriving DecidableEq, Repr

/-- Collaborator environment of the scheduler: `downloader.ensure`,
`downloader.getDuration`, whether a spawned ffmpeg process survives its
startup window for a given file, the configured standby video, and the
auto-playlist generation collaborators (`youtubeService` plus the AI
playlist service, abstracted as the net list of items with their search
queries that one `generateMoreSongs` run pushes). -/
structure Env where
  ensure : EnqueuedItem → Except String String
  getDuration : String → Except String Int
  streamOk : String → Bool
  standbyVideo : Option String
  hasYoutube : Bool
  generate : List EnqueuedItem → List String → List (EnqueuedItem × String)

/-- `QueueService.getCurrent()` (queue.ts lines 62–64): `null` while the
standby filler is playing. -/
def getCurrent (st : QSt) : Option EnqueuedItem :=
  if st.isPlayingStandby then none else st.current

/-- `QueueService.isOnStandby()` (queue.ts lines 66–68). -/
def isOnStandby (st : QSt) : Bool :=
  st.isPlayingStandby

/-- `QueueService.playStandby()` (queue.ts lines 128–143): no-op when no
standby video is configured; otherwise set `isPlayingStandby` and stream
the standby video with `loop = true` (a `streamFile` failure is caught
and only logged). -/
def playStandby (env : Env) (st : QSt) : QSt :=
  match env.standbyVideo with
  | none => st
  | some v =>
      let st1 := { st with isPlayingStandby := true }
      { st1 with
        streamer := (streamFileStep st1.streamer v true (env.streamOk v)).1 }

/-- `QueueService.generateMoreSongs()` (queue.ts lines 145–193): returns
immediately unless auto-playlist is enabled and a YouTube service is
attached; otherwise the AI-playlist/YouTube collaborators produce items
that are pushed onto the queue (requested by `AutoPlaylist`) while their
search queries are added to `playedSongs`.  The collaborator loop is
I/O (AI generation, search, download) and is abstracted as
`env.generate`; every claim below runs with auto-playlist disabled, so
this branch is never exercised. -/
def generateMoreSongs (env : Env) (st : QSt) : QSt :=
  if st.autoPlaylist.enabled ∧ env.hasYoutube then
    let adds := env.generate st.queue st.autoPlaylist.playedSongs
    { st with
      queue := st.queue ++ adds.map Prod.fst
      autoPlaylist := { st.autoPlaylist with
        playedSongs := st.autoPlaylist.playedSongs ++ adds.map Prod.snd } }
  else st

/-- `QueueService.playNext()` (queue.ts lines 195–256).  The function is
re-entrant-guarded by `isProcessing`; the recursive calls (auto-playlist
refill, lines 207–211, and the catch branch, lines 250–255) are fuelled
to make the embedding structurally recursive — every claim is proved
with explicitly sufficient fuel. -/
def playNext : Nat → Env → QSt → QSt
  | 0, _, st => st
  | fuel + 1, env, st =>
    if st.isProcessing then st
    else
      let st1 : QSt :=
        { st with isProcessing := true, streamer := streamerStop st.streamer }
      match st1.queue with
      | [] =>
          let st2 := if st1.autoPlaylist.enabled then generateMoreSongs env st1 else st1
          if st1.autoPlaylist.enabled ∧ st2.queue ≠ [] then
            playNext fuel env { st2 with isProcessing := false }
          else
            playStandby env { st2 with current := none, isProcessing := false }
      | nextItem :: rest =>
          let st2 : QSt :=
            { st1 with
              isPlayingStandby := false, queue := rest, current := some nextItem }
          match env.ensure nextItem with
          | .error _ =>
              playNext fuel env { st2 with current := none, isProcessing := false }
          | .ok filePath =>
              match env.getDuration filePath with
              | .error _ =>
                  playNext fuel env
                    { st2 with current := none, isProcessing := false }
              | .ok durationSec =>
                  match streamFileStep st2.streamer filePath false
                      (env.streamOk filePath) with
                  | (sst, false) =>
                      playNext fuel env
                        { st2 with
                          streamer := sst, current := none, isProcessing := false }
                  | (sst, true) =>
                      { st2 with
                        streamer := sst
                        timer := some ((durationSec + 2) * 1000)
                        isProcessing := false }

/-- The callback armed by `this.timer = setTimeout(() =>
this.playNext(), ...)` (queue.ts lines 244–246): timer expiry invokes
the transition procedure. -/
def timerFire (fuel : Nat) (env : Env) (st : QSt) : QSt :=
  playNext fuel env st

/-- `QueueService.enqueue(item, user)` (queue.ts lines 47–56): append to
the queue, then start the transition procedure iff nothing real is
playing and no transition is in flight. -/
def enqueue (fuel : Nat) (env : Env) (st : QSt) (item : AllowedItem)
    (user : String) : QSt :=
  let st1 := { st with queue := st.queue ++ [item.enqueuedBy user] }
  if (st1.current.isNone || st1.isPlayingStandby) && !st1.isProcessing then
    playNext fuel env st1
  else st1

/-- `QueueService.skip()` (queue.ts lines 98–106): clear the completion
timer, stop the broadcast process, clear `current`, re-run the
transition procedure. -/
def skip (fuel : Nat) (env : Env) (st : QSt) : QSt :=
  playNext fuel env
    { st with timer := none, streamer := streamerStop st.streamer,
              current := none }

/-- `QueueService.stop()` (queue.ts lines 108–118): clear the timer,
stop the broadcast process, clear `current` and the whole queue, leave
standby, and disable the auto-playlist (which also empties
`playedSongs`, queue.ts lines 81–85). -/
def qstop (st : QSt) : QSt :=
  { st with
    timer := none
    streamer := streamerStop st.streamer
    current := none
    queue := []
    isPlayingStandby := false
    autoPlaylist := { st.autoPlaylist with enabled := false, playedSongs := [] } }

/-! ## DownloaderService.getDuration (`src/src/services/downloader.ts`)

`ffmpeg.ffprobe` either calls back with an error or with metadata whose
`format.duration` field may be absent; the callback resolves
`duration ? Math.floor(duration) : 0` and rejects only on a probe
error (downloader.ts lines 60–68).  The probe result is embedded as
`Except String (Option ℚ)` (ffprobe reports durations as decimal
strings; the falsy values of the JS conditional are a missing field and
`0`). -/

/-- `DownloaderService.getDuration` (downloader.ts lines 60–68). -/
def getDurationResult (res : Except String (Option ℚ)) : Except String Int :=
  match res with
  | .error e => .error e
  | .ok md =>
      .ok (match md with
           | none => 0
           | some dur => if dur = 0 then 0 else ⌊dur⌋)

/-! ## streamFile argument construction (`src/src/services/streamer.ts`)

Embedding of `isAudioFile` (lines 413–416), the quality preset table
(lines 149–204) and the ffmpeg argument lists built by `streamFile`
(lines 529–609). -/

/-- `path.extname(filePath)`: the extension (including the dot) taken
from the last `.` of the final path segment; empty when the segment has
no dot or only a leading dot. -/
def extname (p : String) : String :=
  let base := (p.toList.reverse.takeWhile (fun c => c ≠ '/')).reverse
  let pre := (base.reverse.takeWhile (fun c => c ≠ '.')).length
  if pre = base.length then ""
  else
    let idx := base.length - 1 - pre
    if idx = 0 then "" else String.mk (base.drop idx)

/-- `AUDIO_ONLY_EXTENSIONS` (streamer.ts line 136). -/
def AUDIO_ONLY_EXTENSIONS : List String :=
  [".m4a", ".mp3", ".aac", ".flac", ".wav", ".ogg"]

/-- JS `String.prototype.toLowerCase()` restricted to its effect on the
ASCII extensions compared against `AUDIO_ONLY_EXTENSIONS`. -/
def lowercase (s : String) : String :=
  String.mk (s.toList.map Char.toLower)

/-- `StreamerService.isAudioFile` (streamer.ts lines 413–416). -/
def isAudioFile (filePath : String) : Bool :=
  AUDIO_ONLY_EXTENSIONS.contains (lowercase (extname filePath))

/-- `QualityPreset` (streamer.ts lines 139–147). -/
structure QualityPreset where
  name : String
  resolution : String
  width : Nat
  height : Nat
  videoBitrate : String
  audioBitrate : String
  preset : String
  deriving DecidableEq, Repr

/-- The `'720p'` preset (streamer.ts lines 159–167), also the fallback
when `currentQuality` names no preset. -/
def preset720 : QualityPreset :=
  ⟨"720p", "1280x720", 1280, 720, "3000k", "128k", "veryfast"⟩

/-- `QUALITY_PRESETS` (streamer.ts lines 149–204). -/
def QUALITY_PRESETS : String → Option QualityPreset
  | "480p" => some ⟨"480p", "854x480", 854, 480, "1500k", "96k", "veryfast"⟩
  | "720p" => some preset720
  | "1080p" => some ⟨"1080p", "1920x1080", 1920, 1080, "6000k", "192k", "fast"⟩
  | "4k" => some ⟨"4K", "3840x2160", 3840, 2160, "20000k", "256k", "fast"⟩
  | "8k" => some ⟨"8K", "7680x4320", 7680, 4320, "50000k", "320k", "medium"⟩
  | "source" => some ⟨"Source (No Re-encode)", "original", 0, 0, "0", "0", "copy"⟩
  | _ => none

/-- JS `parseInt` on the bitrate strings of the preset table: the value
of the leading run of digits (every `videoBitrate` is digit-prefixed). -/
def parseIntBitrate (s : String) : Nat :=
  (s.toList.takeWhile (fun c => c.isDigit)).foldl
    (fun acc c => acc * 10 + (c.toNat - '0'.toNat)) 0

/-- The `scale=W:H:...,pad=W:H:...` video filter string interpolated at
streamer.ts line 595. -/
def scalePad (w h : Nat) : String :=
  "scale=" ++ toString w ++ ":" ++ toString h ++
    ":force_original_aspect_ratio=decrease,pad=" ++ toString w ++ ":" ++
    toString h ++ ":(ow-iw)/2:(oh-ih)/2"

/-- The lavfi black-background video source (streamer.ts line 545). -/
def lavfiBlackSource : List String :=
  ["-f", "lavfi", "-i", "color=c=black:s=1280x720:r=30:d=99999"]

/-- The ffmpeg argument list `streamFile` builds (streamer.ts lines
529–609).  `thumbUrl` stands for the value of
`getThumbnailUrlForFile(filePath)` (a filesystem/id-mapping lookup,
`null` when no video id is found); the code consults it only when
`useThumbnail` is set. -/
def buildStreamArgs (currentQuality : String) (useThumbnail : Bool)
    (thumbUrl : Option String) (filePath : String) (loop : Bool)
    (rtmpUrl : String) : List String :=
  let isAudio := isAudioFile filePath
  let preset := match QUALITY_PRESETS currentQuality with
    | some p => p
    | none => preset720
  if isAudio then
    let videoSource :=
      if useThumbnail then
        match thumbUrl with
        | some u => ["-loop", "1", "-framerate", "30", "-i", u]
        | none => lavfiBlackSource
      else lavfiBlackSource
    videoSource ++
      ["-i", filePath, "-map", "0:v", "-map", "1:a",
       "-c:v", "libx264", "-preset", "ultrafast", "-tune", "stillimage",
       "-vf", scalePad 1280 720,
       "-c:a", "aac", "-b:a", "192k", "-ar", "48000",
       "-shortest", "-f", "flv", rtmpUrl]
  else if preset.preset = "copy" then
    ["-re"] ++ (if loop then ["-stream_loop", "-1"] else []) ++
      ["-i", filePath, "-c:v", "copy", "-c:a", "aac", "-b:a", "192k",
       "-ar", "48000", "-f", "flv", "-flvflags", "no_duration_filesize",
       rtmpUrl]
  else
    ["-re"] ++ (if loop then ["-stream_loop", "-1"] else []) ++
      ["-i", filePath, "-vf", scalePad preset.width preset.height,
       "-c:v", "libx264", "-preset", preset.preset,
       "-maxrate", preset.videoBitrate,
       "-bufsize", toString (parseIntBitrate preset.videoBitrate * 2) ++ "k",
       "-pix_fmt", "yuv420p", "-g", "50",
       "-c:a", "aac", "-b:a", preset.audioBitrate, "-ar", "48000",
       "-f", "flv", "-flvflags", "no_duration_filesize", rtmpUrl]

/-! ## Persistence variant of QueueService (`src/unnamed/part_003`,
second class in the file)

This variant adds state persistence (`saveState`/`loadState`), a
`lastPlayedVideoId`, and a YouTube-suggestions mode to the scheduler.
`saveState` only writes the snapshot file and is invisible to the
in-memory state, so it is not embedded.  The extra fields of the state
record model the asynchronous artefacts of `loadState`: `resumeScheduled`
is true iff the 3-second auto-resume `setTimeout` was armed, and
`relatedRequested` logs the fire-and-forget `queueNextRelatedVideo`
background fetches started by `playNext` (part_003, step 4). -/

namespace Persist

/-- `AutoPlaylistConfig` of the persistence variant (adds
`useYouTubeSuggestions`). -/
structure APConfig where
  enabled : Bool
  description : String
  songsPerBatch : Nat
  playedSongs : List String
  useYouTubeSuggestions : Bool
  deriving DecidableEq, Repr

/-- Private fields of the persistence-variant `QueueService`. -/
structure QSt3 where
  queue : List EnqueuedItem
  current : Option EnqueuedItem
  timer : Option Int
  isProcessing : Bool
  isPlayingStandby : Bool
  lastPlayedVideoId : String
  autoPlaylist : APConfig
  streamer : StreamerSt
  resumeScheduled : Bool
  relatedRequested : List String
  deriving DecidableEq, Repr

/-- `QueueState`, the persisted snapshot (part_003). -/
structure QueueState where
  queue : List EnqueuedItem
  current : Option EnqueuedItem
  lastPlayedVideoId : String
  suggestionsEnabled : Bool
  deriving DecidableEq, Repr

/-- `QueueService.loadState()` (part_003): a missing or unparsable
snapshot leaves the state untouched; otherwise restore the persisted
fields, push a non-null `current` back to the front of the queue
(interrupted, not completed), and, when the restored queue is
non-empty, arm the 3-second auto-resume timer. -/
def loadState (snap : Option QueueState) (st : QSt3) : QSt3 :=
  match snap with
  | none => st
  | some state =>
      let st1 :=
        { st with
          queue := state.queue
          current := state.current
          lastPlayedVideoId := state.lastPlayedVideoId
          autoPlaylist :=
            { st.autoPlaylist with
              useYouTubeSuggestions := state.suggestionsEnabled } }
      let st2 :=
        match st1.current with
        | some c => { st1 with queue := c :: st1.queue, current := none }
        | none => st1
      if st2.queue.isEmpty then st2 else { st2 with resumeScheduled := true }

/-- The regex `/^yt_([a-zA-Z0-9_-]{11})/` applied to an item key
(part_003, `playNext` step 4). -/
def ytKeyId (key : String) : Option String :=
  if key.startsWith "yt_" then
    let id := (key.drop 3).toList.take 11
    if id.length = 11 && id.all (fun c => c.isAlphanum || c = '_' || c = '-') then
      some (String.mk id)
    else none
  else none

/-- `playStandby` of the persistence variant (same body as
queue.ts lines 128–143). -/
def playStandby3 (env : Env) (st : QSt3) : QSt3 :=
  match env.standbyVideo with
  | none => st
  | some v =>
      let st1 := { st with isPlayingStandby := true }
      { st1 with
        streamer := (streamFileStep st1.streamer v true (env.streamOk v)).1 }

/-- `generateMoreSongs` of the persistence variant (same collaborator
abstraction as `generateMoreSongs` above). -/
def generateMoreSongs3 (env : Env) (st : QSt3) : QSt3 :=
  if st.autoPlaylist.enabled ∧ env.hasYoutube then
    let adds := env.generate st.queue st.autoPlaylist.playedSongs
    { st with
      queue := st.queue ++ adds.map Prod.fst
      autoPlaylist := { st.autoPlaylist with
        playedSongs := st.autoPlaylist.playedSongs ++ adds.map Prod.snd } }
  else st

/-- `playNext` of the persistence variant: identical to
queue.ts `playNext` except for step 4, which (when YouTube suggestions
are on, a YouTube service is attached and the queue has run dry)
records the just-started video id and fires a background
`queueNextRelatedVideo` fetch. -/
def playNext3 : Nat → Env → QSt3 → QSt3
  | 0, _, st => st
  | fuel + 1, env, st =>
    if st.isProcessing then st
    else
      let st1 : QSt3 :=
        { st with isProcessing := true, streamer := streamerStop st.streamer }
      match st1.queue with
      | [] =>
          let st2 := if st1.autoPlaylist.enabled then generateMoreSongs3 env st1 else st1
          if st1.autoPlaylist.enabled ∧ st2.queue ≠ [] then
            playNext3 fuel env { st2 with isProcessing := false }
          else
            playStandby3 env { st2 with current := none, isProcessing := false }
      | nextItem :: rest =>
          let st2 : QSt3 :=
            { st1 with
              isPlayingStandby := false, queue := rest, current := some nextItem }
          match env.ensure nextItem with
          | .error _ =>
              playNext3 fuel env { st2 with current := none, isProcessing := false }
          | .ok filePath =>
              match env.getDuration filePath with
              | .error _ =>
                  playNext3 fuel env
                    { st2 with current := none, isProcessing := false }
              | .ok durationSec =>
                  match streamFileStep st2.streamer filePath false
                      (env.streamOk filePath) with
                  | (sst, false) =>
                      playNext3 fuel env
                        { st2 with
                          streamer := sst, current := none, isProcessing := false }
                  | (sst, true) =>
                      let st3 : QSt3 := { st2 with streamer := sst }
                      let st4 : QSt3 :=
                        if st3.autoPlaylist.useYouTubeSuggestions ∧ env.hasYoutube
                            ∧ st3.queue = [] then
                          match ytKeyId nextItem.key with
                          | some vid =>
                              { st3 with
                                lastPlayedVideoId := vid
                                relatedRequested := vid :: st3.relatedRequested }
                          | none => st3
                        else st3
                      { st4 with
                        timer := some ((durationSec + 2) * 1000)
                        isProcessing := false }

/-- The auto-resume `setTimeout` callback armed by `loadState`
(part_003): after the 3-second grace delay, start playback iff nothing
is current and no transition is in flight. -/
def resumeFire (fuel : Nat) (env : Env) (st : QSt3) : QSt3 :=
  if st.current.isNone && !st.isProcessing then playNext3 fuel env st else st

end Persist

/-! ## Concrete instances used by the witnesses -/

def wItemBad : EnqueuedItem :=
  ⟨"bad", "Bad Song", .youtube_url "https://youtu.be/bad", "alice"⟩

def wItemGood : EnqueuedItem :=
  ⟨"good", "Good Song", .local_file "/media/good.mp3", "bob"⟩

def wAllowedA : AllowedItem := ⟨"a", "Song A", .local_file "/media/a.mp3"⟩

def wAllowedB : AllowedItem := ⟨"b", "Song B", .youtube_url "https://youtu.be/b"⟩

/-- A concrete collaborator environment: the item with key `bad` fails
resolution, every other item resolves to a cached file of 180 seconds
(files named `zero` probe to duration 0), the spawned process always
survives startup, and `standby.mp4` is the configured filler. -/
def wEnv : Env :=
  { ensure := fun it =>
      if it.key = "bad" then .error "Local file not found"
      else .ok ("/media/" ++ it.key ++ ".mp3")
    getDuration := fun fp => if fp = "/media/zero.mp3" then .ok 0 else .ok 180
    streamOk := fun _ => true
    standbyVideo := some "standby.mp4"
    hasYoutube := false
    generate := fun _ _ => [] }

/-- A freshly constructed scheduler state. -/
def wSt0 : QSt :=
  { queue := [], current := none, timer := none, isProcessing := false
    isPlayingStandby := false
    autoPlaylist :=
      { enabled := false, description := "", songsPerBatch := 3, playedSongs := [] }
    streamer := StreamerSt.init }

/-- A scheduler state with one item playing (one live ffmpeg process),
one pending item, an armed timer and auto-playlist enabled. -/
def wStLive : QSt :=
  { queue := [wItemBad], current := some wItemGood, timer := some 182000
    isProcessing := false, isPlayingStandby := false
    autoPlaylist :=
      { enabled := true, description := "chill", songsPerBatch := 3
        playedSongs := ["q1"] }
    streamer :=
      { currentProcess := some 0, nextPid := 1
        spawned := [⟨0, "/media/good.mp3", false⟩], dead := [] } }

/-- `wStLive` with an empty queue and auto-playlist disabled (the C5
scenario). -/
def wStSkip : QSt :=
  { wStLive with
    queue := []
    autoPlaylist := { wStLive.autoPlaylist with enabled := false } }

/-- A persisted snapshot with an interrupted current item. -/
def wSnap : Persist.QueueState :=
  ⟨[wItemBad], some wItemGood, "", false⟩

/-- A freshly constructed persistence-variant scheduler state. -/
def wSt3 : Persist.QSt3 :=
  { queue := [], current := none, timer := none, isProcessing := false
    isPlayingStandby := false, lastPlayedVideoId := ""
    autoPlaylist :=
      { enabled := false, description := "", songsPerBatch := 3
        playedSongs := [], useYouTubeSuggestions := false }
    streamer := StreamerSt.init, resumeScheduled := false, relatedRequested := [] }

/-! ## Streamer invariant lemmas -/

lemma sInv_init : SInv StreamerSt.init := by
  constructor <;> simp [StreamerSt.init]

lemma streamerOnClose_eq_stop (s : StreamerSt) :
    streamerOnClose s = streamerStop s := by
  cases h : s.currentProcess <;> simp [streamerOnClose, streamerStop, h]

lemma streamerStop_currentProcess (s : StreamerSt) :
    (streamerStop s).currentProcess = none := by
  cases h : s.currentProcess <;> simp [streamerStop, h]

lemma streamerStop_nextPid (s : StreamerSt) :
    (streamerStop s).nextPid = s.nextPid := by
  cases h : s.currentProcess <;> simp [streamerStop, h]

lemma sInv_streamerStop {s : StreamerSt} (hs : SInv s) :
    SInv (streamerStop s) := by
  cases h : s.currentProcess with
  | none => simpa [streamerStop, h] using hs
  | some p =>
    refine ⟨?_, ?_, ?_, ?_, ?_⟩ <;> simp only [streamerStop, h]
    · exact hs.spawnedLt
    · intro d hd
      rcases List.mem_cons.mp hd with rfl | hd
      · exact hs.handleLt d h
      · exact hs.deadLt d hd
    · intro q hq; simp at hq
    · intro p' hp' hnd
      exfalso
      have hnd' : p'.pid ∉ s.dead := fun hx => hnd (List.mem_cons_of_mem _ hx)
      have := hs.handleCover p' hp' hnd'
      rw [h] at this
      exact hnd (by simp [Option.some_inj.mp this.symm])
    · exact hs.nodupPids

lemma sInv_spawnProc {s : StreamerSt} (hs : SInv s)
    (hnone : s.currentProcess = none) (file : String) (loop : Bool) :
    SInv (spawnProc s file loop) := by
  refine ⟨?_, ?_, ?_, ?_, ?_⟩ <;> simp only [spawnProc]
  · intro p hp
    rcases List.mem_cons.mp hp with rfl | hp
    · simp
    · exact Nat.lt_succ_of_lt (hs.spawnedLt p hp)
  · intro d hd; exact Nat.lt_succ_of_lt (hs.deadLt d hd)
  · intro q hq
    simp only [Option.some_inj] at hq
    omega
  · intro p hp hnd
    rcases List.mem_cons.mp hp with rfl | hp
    · rfl
    · exact absurd (hs.handleCover p hp hnd) (by simp [hnone])
  · refine List.nodup_cons.mpr ⟨?_, hs.nodupPids⟩
    intro hx
    rcases List.mem_map.mp hx with ⟨p, hp, hpid⟩
    exact absurd hpid (Nat.ne_of_gt (hs.spawnedLt p hp)).symm

lemma streamFileProcFail_eq (s : StreamerSt) (file : String) (loop : Bool) :
    streamFileProcFail s file loop =
      streamerOnClose (spawnProc (streamerStop s) file loop) := by
  cases h : s.currentProcess <;>
    simp [streamFileProcFail, streamerOnClose, spawnProc, streamerStop, h]

lemma sInv_streamerStep {s : StreamerSt} (hs : SInv s) (op : StreamerOp) :
    SInv (streamerStep s op) := by
  have hspawn : ∀ file loop, SInv (spawnProc (streamerStop s) file loop) :=
    fun file loop =>
      sInv_spawnProc (sInv_streamerStop hs) (streamerStop_currentProcess s)
        file loop
  cases op with
  | opStreamFile file loop ok =>
    cases ok with
    | true => simpa [streamerStep, streamFileStep] using hspawn file loop
    | false =>
      simp only [streamerStep, streamFileStep, Bool.false_eq_true, if_false,
        streamFileProcFail_eq, streamerOnClose_eq_stop]
      exact sInv_streamerStop (hspawn file loop)
  | opStreamPlaylist ok =>
    cases ok with
    | true => simpa [streamerStep, streamFileStep] using hspawn "playlist.txt" false
    | false =>
      simp only [streamerStep, streamFileStep, Bool.false_eq_true, if_false,
        streamFileProcFail_eq, streamerOnClose_eq_stop]
      exact sInv_streamerStop (hspawn "playlist.txt" false)
  | opStop => exact sInv_streamerStop hs
  | opClose => rw [streamerStep, streamerOnClose_eq_stop]; exact sInv_streamerStop hs

lemma sInv_runStreamer {s : StreamerSt} (hs : SInv s) (ops : List StreamerOp) :
    SInv (runStreamer s ops) := by
  induction ops generalizing s with
  | nil => exact hs
  | cons op ops ih => exact ih (sInv_streamerStep hs op)

lemma live_length_le_one {s : StreamerSt} (hs : SInv s) :
    s.live.length ≤ 1 := by
  rcases hl : s.live with _ | ⟨a, _ | ⟨b, t⟩⟩
  · simp
  · simp
  · exfalso
    have ha : a ∈ s.live := by rw [hl]; exact List.mem_cons_self a _
    have hb : b ∈ s.live := by
      rw [hl]; exact List.mem_cons_of_mem _ (List.mem_cons_self b _)
    rw [StreamerSt.live, List.mem_filter] at ha hb
    have hand : a.pid ∉ s.dead := by
      have := ha.2; simpa using this
    have hbnd : b.pid ∉ s.dead := by
      have := hb.2; simpa using this
    have hca := hs.handleCover a ha.1 hand
    have hcb := hs.handleCover b hb.1 hbnd
    have hpid : a.pid = b.pid := by
      rw [hca] at hcb; exact (Option.some_inj.mp hcb)
    have hsub : List.Sublist (s.live.map ProcRec.pid) (s.spawned.map ProcRec.pid) :=
      (List.filter_sublist _).map _
    have hnd : (s.live.map ProcRec.pid).Nodup := hs.nodupPids.sublist hsub
    rw [hl] at hnd
    simp only [List.map_cons, List.nodup_cons, List.mem_cons] at hnd
    exact hnd.1 (Or.inl hpid)

/-! ## Path lemmas for `playNext` -/

lemma streamerStop_idem (s : StreamerSt) :
    streamerStop (streamerStop s) = streamerStop s := by
  cases h : s.currentProcess <;> simp [streamerStop, h]

/-- Success path of the transition procedure (queue.ts lines 225–248):
dequeue the head, resolve it, probe the duration, start the stream, arm
the completion timer for `(durationSec + 2) * 1000` ms. -/
lemma playNext_success (f : Nat) (env : Env) (st : QSt)
    (it : EnqueuedItem) (rest : List EnqueuedItem) (fp : String) (d : Int)
    (hproc : st.isProcessing = false)
    (hq : st.queue = it :: rest)
    (hens : env.ensure it = .ok fp)
    (hdur : env.getDuration fp = .ok d)
    (hok : env.streamOk fp = true) :
    playNext (f + 1) env st =
      { st with
        queue := rest
        current := some it
        isPlayingStandby := false
        timer := some ((d + 2) * 1000)
        isProcessing := false
        streamer := spawnProc (streamerStop st.streamer) fp false } := by
  simp [playNext, hproc, hq, hens, hdur, hok, streamFileStep, streamerStop_idem]

/-- Failure path of the transition procedure (queue.ts lines 250–255):
the failed head has been dequeued and is not requeued; `current` is
cleared and the procedure recurses on the remainder. -/
lemma playNext_ensure_error (f : Nat) (env : Env) (st : QSt)
    (it : EnqueuedItem) (rest : List EnqueuedItem) (e : String)
    (hproc : st.isProcessing = false)
    (hq : st.queue = it :: rest)
    (hbad : env.ensure it = .error e) :
    playNext (f + 1) env st =
      playNext f env
        { st with
          queue := rest
          current := none
          isPlayingStandby := false
          isProcessing := false
          streamer := streamerStop st.streamer } := by
  simp [playNext, hproc, hq, hbad]

/-- Empty-queue path with auto-playlist disabled (queue.ts lines
202–219): clear `current` and fall back to the standby filler. -/
lemma playNext_empty_standby (f : Nat) (env : Env) (st : QSt) (v : String)
    (hproc : st.isProcessing = false)
    (hq : st.queue = [])
    (hap : st.autoPlaylist.enabled = false)
    (hsb : env.standbyVideo = some v) :
    playNext (f + 1) env st =
      { st with
        current := none
        isProcessing := false
        isPlayingStandby := true
        streamer :=
          (streamFileStep (streamerStop st.streamer) v true (env.streamOk v)).1 } := by
  simp [playNext, hproc, hq, hap, playStandby, hsb]

/-! ## Live-process lemmas -/

lemma nextPid_not_dead {s : StreamerSt} (hs : SInv s) :
    s.nextPid ∉ s.dead :=
  fun h => absurd (hs.deadLt _ h) (lt_irrefl _)

lemma live_streamerStop_nil {s : StreamerSt} (hs : SInv s) :
    (streamerStop s).live = [] := by
  have key : ∀ p ∈ (streamerStop s).spawned, p.pid ∈ (streamerStop s).dead := by
    intro p hp
    cases h : s.currentProcess with
    | none =>
      simp only [streamerStop, h] at hp ⊢
      by_contra hx
      have := hs.handleCover p hp hx
      rw [h] at this
      exact Option.noConfusion this
    | some q =>
      simp only [streamerStop, h] at hp ⊢
      by_cases hx : p.pid ∈ s.dead
      · exact List.mem_cons_of_mem _ hx
      · have hc := hs.handleCover p hp hx
        rw [h] at hc
        have : q = p.pid := Option.some_inj.mp hc
        rw [← this]
        exact List.mem_cons_self _ _
  rw [StreamerSt.live, List.filter_eq_nil_iff]
  intro p hp
  simp [key p hp]

lemma live_spawnProc (s : StreamerSt) (file : String) (loop : Bool)
    (hnd : s.nextPid ∉ s.dead) (hlive : s.live = []) :
    (spawnProc s file loop).live = [⟨s.nextPid, file, loop⟩] := by
  rw [StreamerSt.live] at hlive ⊢
  simp only [spawnProc, List.filter_cons]
  simp at hlive
  simp [hnd, hlive]
  exact hlive

/-- Success path of the persistence-variant transition procedure: the
head item becomes current, the queue holds the remainder, and the timer
is armed, whatever the YouTube-suggestions step does. -/
lemma playNext3_success_proj (f : Nat) (env : Env) (st : Persist.QSt3)
    (it : EnqueuedItem) (rest : List EnqueuedItem) (fp : String) (d : Int)
    (hproc : st.isProcessing = false)
    (hq : st.queue = it :: rest)
    (hens : env.ensure it = .ok fp)
    (hdur : env.getDuration fp = .ok d)
    (hok : env.streamOk fp = true) :
    (Persist.playNext3 (f + 1) env st).current = some it ∧
    (Persist.playNext3 (f + 1) env st).queue = rest ∧
    (Persist.playNext3 (f + 1) env st).timer = some ((d + 2) * 1000) ∧
    (Persist.playNext3 (f + 1) env st).isProcessing = false := by
  simp only [Persist.playNext3, hproc, Bool.false_eq_true, if_false, hq, hens,
    hdur, hok, streamFileStep, if_true]
  refine ⟨?_, ?_, ?_, ?_⟩ <;>
    first
      | trivial
      | · split
          · split <;> rfl
          · rfl

/-! ## Claim theorems -/

/-- C1: every `streamFile`/`streamPlaylist` call awaits `stop()` before
spawning, so in every state reachable by streamer operations (including
asynchronous `close` events) at most one broadcast process is live, and
`currentProcess` refers to the live process when one exists. -/
theorem streamer_at_most_one_live_process (ops : List StreamerOp) :
    ((runStreamer StreamerSt.init ops).live).length ≤ 1 ∧
    (∀ p ∈ (runStreamer StreamerSt.init ops).live,
      (runStreamer StreamerSt.init ops).currentProcess = some p.pid) := by
  have hs := sInv_runStreamer sInv_init ops
  refine ⟨live_length_le_one hs, ?_⟩
  intro p hp
  rw [StreamerSt.live, List.mem_filter] at hp
  exact hs.handleCover p hp.1 (by simpa using hp.2)

/-- Witness for C1: two consecutive `streamFile` calls followed by a
`streamPlaylist` call leave exactly one live process. -/
theorem streamer_at_most_one_live_process_witness :
    ((runStreamer StreamerSt.init
        [.opStreamFile "/media/a.mp3" false true,
         .opStreamFile "/media/b.mp3" true true,
         .opStreamPlaylist true]).live).length ≤ 1 ∧
    (∀ p ∈ (runStreamer StreamerSt.init
        [.opStreamFile "/media/a.mp3" false true,
         .opStreamFile "/media/b.mp3" true true,
         .opStreamPlaylist true]).live,
      (runStreamer StreamerSt.init
        [.opStreamFile "/media/a.mp3" false true,
         .opStreamFile "/media/b.mp3" true true,
         .opStreamPlaylist true]).currentProcess = some p.pid) :=
  streamer_at_most_one_live_process
    [.opStreamFile "/media/a.mp3" false true,
     .opStreamFile "/media/b.mp3" true true,
     .opStreamPlaylist true]

/-- C3: a `playNext` invocation while a transition is in flight
(`isProcessing` true) returns at once without touching the state, and
two `enqueue` calls arriving during an in-flight transition append their
items in call order without starting a second transition (the end state
differs from the start state only in the appended queue entries). -/
theorem playNext_reentrancy_guard (fuel fa fb : Nat) (env : Env) (st : QSt)
    (a b : AllowedItem) (ua ub : String)
    (h : st.isProcessing = true) :
    playNext fuel env st = st ∧
    enqueue fb env (enqueue fa env st a ua) b ub =
      { st with queue := st.queue ++ [a.enqueuedBy ua, b.enqueuedBy ub] } := by
  constructor
  · cases fuel with
    | zero => rfl
    | succ n => simp [playNext, h]
  · simp [enqueue, h]

/-- Witness for C3 on a state mid-transition. -/
theorem playNext_reentrancy_guard_witness :
    ({ wSt0 with isProcessing := true } : QSt).isProcessing = true ∧
    (playNext 5 wEnv { wSt0 with isProcessing := true } =
        { wSt0 with isProcessing := true } ∧
      enqueue 5 wEnv (enqueue 5 wEnv { wSt0 with isProcessing := true } wAllowedA "alice")
          wAllowedB "bob" =
        { ({ wSt0 with isProcessing := true } : QSt) with
          queue := ({ wSt0 with isProcessing := true } : QSt).queue ++
            [wAllowedA.enqueuedBy "alice", wAllowedB.enqueuedBy "bob"] }) :=
  ⟨rfl, playNext_reentrancy_guard 5 5 5 wEnv { wSt0 with isProcessing := true }
    wAllowedA wAllowedB "alice" "bob" rfl⟩

/-- C6: after a successful start of a queue item the completion timer is
armed for exactly `(durationSec + 2) * 1000` milliseconds, and the armed
callback is the transition procedure itself. -/
theorem completion_timer_duration_plus_grace (f : Nat) (env : Env) (st : QSt)
    (it : EnqueuedItem) (rest : List EnqueuedItem) (fp : String) (d : Int)
    (hproc : st.isProcessing = false)
    (hq : st.queue = it :: rest)
    (hens : env.ensure it = .ok fp)
    (hdur : env.getDuration fp = .ok d)
    (hok : env.streamOk fp = true) :
    (playNext (f + 1) env st).timer = some ((d + 2) * 1000) ∧
    (∀ f' env' st', timerFire f' env' st' = playNext f' env' st') := by
  refine ⟨?_, fun _ _ _ => rfl⟩
  rw [playNext_success f env st it rest fp d hproc hq hens hdur hok]

/-- Witness for C6: a 180-second item arms a 182000 ms timer. -/
theorem completion_timer_duration_plus_grace_witness :
    ({ wSt0 with queue := [wItemGood] } : QSt).isProcessing = false ∧
    ({ wSt0 with queue := [wItemGood] } : QSt).queue = [wItemGood] ∧
    wEnv.ensure wItemGood = .ok "/media/good.mp3" ∧
    wEnv.getDuration "/media/good.mp3" = .ok 180 ∧
    wEnv.streamOk "/media/good.mp3" = true ∧
    ((playNext 1 wEnv { wSt0 with queue := [wItemGood] }).timer =
        some ((180 + 2) * 1000) ∧
      (∀ f' env' st', timerFire f' env' st' = playNext f' env' st')) :=
  ⟨rfl, rfl, rfl, rfl, rfl,
    completion_timer_duration_plus_grace 0 wEnv { wSt0 with queue := [wItemGood] }
      wItemGood [] "/media/good.mp3" 180 rfl rfl rfl rfl rfl⟩

/-- C7: the in-flight `streamFile` promise resolves exactly when the
ffmpeg exit code is whitelisted (0 or 255, the latter being the
SIGTERM-induced exit produced by `stop()`), and rejects with a
process-failure error for any other code. -/
theorem streamFile_exit_code_whitelist (code : Int) :
    (ffmpegExitOutcome code = .ok () ↔ (code = 0 ∨ code = 255)) ∧
    (ffmpegExitOutcome code = .error "FFmpeg exited with unexpected code" ↔
      ¬(code = 0 ∨ code = 255)) := by
  by_cases h : code = 0 ∨ code = 255 <;> simp [ffmpegExitOutcome, h]

/-- Witness for C7 at exit codes 255 (resolves) and 1 (rejects). -/
theorem streamFile_exit_code_whitelist_witness :
    ((ffmpegExitOutcome 255 = .ok () ↔ ((255 : Int) = 0 ∨ (255 : Int) = 255)) ∧
      (ffmpegExitOutcome 255 = .error "FFmpeg exited with unexpected code" ↔
        ¬((255 : Int) = 0 ∨ (255 : Int) = 255))) ∧
    ((ffmpegExitOutcome 1 = .ok () ↔ ((1 : Int) = 0 ∨ (1 : Int) = 255)) ∧
      (ffmpegExitOutcome 1 = .error "FFmpeg exited with unexpected code" ↔
        ¬((1 : Int) = 0 ∨ (1 : Int) = 255))) :=
  ⟨streamFile_exit_code_whitelist 255, streamFile_exit_code_whitelist 1⟩

/-- C10: `getDuration` resolves with the floored duration on a
successful probe, resolves with 0 when the duration field is absent,
rejects exactly on a probe error, and a 0-duration file is scheduled
with a completion timer of only the 2-second grace constant. -/
theorem getDuration_floor_or_zero (e : String) (d : ℚ) (hd : d ≠ 0) :
    getDurationResult (.error e) = .error e ∧
    getDurationResult (.ok none) = .ok 0 ∧
    getDurationResult (.ok (some d)) = .ok ⌊d⌋ ∧
    getDurationResult (.ok (some 0)) = .ok 0 ∧
    (∀ f env st it rest fp,
      st.isProcessing = false → st.queue = it :: rest →
      env.ensure it = .ok fp → env.getDuration fp = .ok 0 →
      env.streamOk fp = true →
      (playNext (f + 1) env st).timer = some 2000) := by
  refine ⟨rfl, rfl, by simp [getDurationResult, hd], rfl, ?_⟩
  intro f env st it rest fp h1 h2 h3 h4 h5
  rw [playNext_success f env st it rest fp 0 h1 h2 h3 h4 h5]
  norm_num

/-- Witness for C10 at duration 7/2 (floors to 3). -/
theorem getDuration_floor_or_zero_witness :
    ((7 / 2 : ℚ) ≠ 0) ∧
    (getDurationResult (.error "probe failed") = .error "probe failed" ∧
      getDurationResult (.ok none) = .ok 0 ∧
      getDurationResult (.ok (some (7 / 2))) = .ok ⌊(7 / 2 : ℚ)⌋ ∧
      getDurationResult (.ok (some 0)) = .ok 0 ∧
      (∀ f env st it rest fp,
        st.isProcessing = false → st.queue = it :: rest →
        env.ensure it = .ok fp → env.getDuration fp = .ok 0 →
        env.streamOk fp = true →
        (playNext (f + 1) env st).timer = some 2000)) :=
  ⟨by norm_num, getDuration_floor_or_zero "probe failed" (7 / 2) (by norm_num)⟩

/-- C2: when the queue head fails resolution and the second item
resolves, one `playNext` run discards the failed head (it is not
requeued), recurses on the remainder, and ends with the second item
current and its timer armed; the failure is swallowed inside the
transition procedure (the embedding of `playNext` is a total state
function — enqueue callers never see an exception). -/
theorem playNext_failed_head_isolated (f : Nat) (env : Env) (st : QSt)
    (bad good : EnqueuedItem) (rest : List EnqueuedItem)
    (e fp : String) (d : Int)
    (hq : st.queue = bad :: good :: rest)
    (hproc : st.isProcessing = false)
    (hbad : env.ensure bad = .error e)
    (hgood : env.ensure good = .ok fp)
    (hdur : env.getDuration fp = .ok d)
    (hok : env.streamOk fp = true) :
    (playNext (f + 2) env st).current = some good ∧
    (playNext (f + 2) env st).queue = rest ∧
    (bad ∉ rest → bad ∉ (playNext (f + 2) env st).queue) ∧
    (playNext (f + 2) env st).timer = some ((d + 2) * 1000) ∧
    (playNext (f + 2) env st).isProcessing = false := by
  have hstep : f + 2 = (f + 1) + 1 := rfl
  rw [hstep,
    playNext_ensure_error (f + 1) env st bad (good :: rest) e hproc hq hbad,
    playNext_success f env _ good rest fp d rfl rfl hgood hdur hok]
  exact ⟨rfl, rfl, fun h => h, rfl, rfl⟩

/-- Witness for C2: queue `[bad, good]`, the bad item fails resolution,
the good one plays. -/
theorem playNext_failed_head_isolated_witness :
    ({ wSt0 with queue := [wItemBad, wItemGood] } : QSt).queue =
      [wItemBad, wItemGood] ∧
    ({ wSt0 with queue := [wItemBad, wItemGood] } : QSt).isProcessing = false ∧
    wEnv.ensure wItemBad = .error "Local file not found" ∧
    wEnv.ensure wItemGood = .ok "/media/good.mp3" ∧
    wEnv.getDuration "/media/good.mp3" = .ok 180 ∧
    wEnv.streamOk "/media/good.mp3" = true ∧
    ((playNext 2 wEnv { wSt0 with queue := [wItemBad, wItemGood] }).current =
        some wItemGood ∧
      (playNext 2 wEnv { wSt0 with queue := [wItemBad, wItemGood] }).queue = [] ∧
      (wItemBad ∉ ([] : List EnqueuedItem) →
        wItemBad ∉ (playNext 2 wEnv { wSt0 with queue := [wItemBad, wItemGood] }).queue) ∧
      (playNext 2 wEnv { wSt0 with queue := [wItemBad, wItemGood] }).timer =
        some ((180 + 2) * 1000) ∧
      (playNext 2 wEnv { wSt0 with queue := [wItemBad, wItemGood] }).isProcessing =
        false) :=
  ⟨rfl, rfl, rfl, rfl, rfl, rfl,
    playNext_failed_head_isolated 0 wEnv { wSt0 with queue := [wItemBad, wItemGood] }
      wItemBad wItemGood [] "Local file not found" "/media/good.mp3" 180
      rfl rfl rfl rfl rfl rfl⟩

/-- C4: a second consecutive `stop()` is observationally a no-op: it
yields exactly the state of the first call, whose end state has an
empty queue, no current item, no timer, auto-replenish disabled with
its de-duplication set emptied, and no live broadcast process. -/
theorem stop_idempotent (st : QSt) (hinv : SInv st.streamer) :
    qstop (qstop st) = qstop st ∧
    (qstop st).queue = [] ∧
    (qstop st).current = none ∧
    (qstop st).timer = none ∧
    (qstop st).isPlayingStandby = false ∧
    (qstop st).autoPlaylist.enabled = false ∧
    (qstop st).autoPlaylist.playedSongs = [] ∧
    (qstop st).streamer.live = [] := by
  refine ⟨?_, rfl, rfl, rfl, rfl, rfl, rfl, live_streamerStop_nil hinv⟩
  simp [qstop, streamerStop_idem]

/-- Witness for C4 on a state with a playing item, a pending queue, an
armed timer, auto-playlist enabled and one live process. -/
theorem stop_idempotent_witness :
    SInv wStLive.streamer ∧
    (qstop (qstop wStLive) = qstop wStLive ∧
      (qstop wStLive).queue = [] ∧
      (qstop wStLive).current = none ∧
      (qstop wStLive).timer = none ∧
      (qstop wStLive).isPlayingStandby = false ∧
      (qstop wStLive).autoPlaylist.enabled = false ∧
      (qstop wStLive).autoPlaylist.playedSongs = [] ∧
      (qstop wStLive).streamer.live = []) :=
  have hinv : SInv wStLive.streamer :=
    ⟨by decide, by decide,
     fun q hq => by simp [wStLive] at hq ⊢; omega,
     by decide, by decide⟩
  ⟨hinv, stop_idempotent wStLive hinv⟩

/-- C5: with a current item playing, an empty queue, auto-replenish off
and a filler configured, `skip()` cancels the timer, stops the old
process (its pid becomes dead), clears `current`, and re-runs the
transition procedure, landing on standby: `getCurrent` is `none`,
`isOnStandby` is true, and the single live broadcast process runs the
standby asset with loop enabled. -/
theorem skip_to_standby (f : Nat) (env : Env) (st : QSt)
    (it : EnqueuedItem) (v : String)
    (_hcur : st.current = some it)
    (hq : st.queue = [])
    (hproc : st.isProcessing = false)
    (hap : st.autoPlaylist.enabled = false)
    (hsb : env.standbyVideo = some v)
    (hok : env.streamOk v = true)
    (hinv : SInv st.streamer) :
    getCurrent (skip (f + 1) env st) = none ∧
    isOnStandby (skip (f + 1) env st) = true ∧
    (skip (f + 1) env st).timer = none ∧
    (skip (f + 1) env st).current = none ∧
    (∀ p, st.streamer.currentProcess = some p →
      p ∈ (skip (f + 1) env st).streamer.dead) ∧
    (skip (f + 1) env st).streamer.live = [⟨st.streamer.nextPid, v, true⟩] ∧
    (skip (f + 1) env st).streamer.currentProcess = some st.streamer.nextPid := by
  rw [skip,
    playNext_empty_standby f env
      { st with timer := none, streamer := streamerStop st.streamer,
                current := none }
      v hproc hq hap hsb]
  rw [hok]
  simp only [streamFileStep, if_true, streamerStop_idem]
  have hnd : (streamerStop st.streamer).nextPid ∉ (streamerStop st.streamer).dead :=
    nextPid_not_dead (sInv_streamerStop hinv)
  have hlive : (streamerStop st.streamer).live = [] := live_streamerStop_nil hinv
  refine ⟨by simp [getCurrent], by simp [isOnStandby], trivial, trivial, ?_, ?_, ?_⟩
  · intro p hp
    simp only [spawnProc, streamerStop, hp]
    exact List.mem_cons_self _ _
  · rw [live_spawnProc _ v true hnd hlive, streamerStop_nextPid]
  · simp only [spawnProc, streamerStop_nextPid]

/-- Witness for C5: skipping the playing item of `wStSkip` (current
playing, queue empty, auto-playlist off) lands on the looping standby
video. -/
theorem skip_to_standby_witness :
    wStSkip.current = some wItemGood ∧
    wStSkip.queue = [] ∧
    wEnv.standbyVideo = some "standby.mp4" ∧
    wEnv.streamOk "standby.mp4" = true ∧
    (getCurrent (skip 1 wEnv wStSkip) = none ∧
      isOnStandby (skip 1 wEnv wStSkip) = true ∧
      (skip 1 wEnv wStSkip).streamer.live = [⟨1, "standby.mp4", true⟩]) := by
  have hinv : SInv wStSkip.streamer :=
    ⟨by decide, by decide,
     fun q hq => by simp [wStSkip, wStLive] at hq ⊢; omega,
     by decide, by decide⟩
  have h := skip_to_standby 0 wEnv wStSkip wItemGood "standby.mp4"
    rfl rfl rfl rfl rfl rfl hinv
  exact ⟨rfl, rfl, rfl, rfl, h.1, h.2.1, h.2.2.2.2.2.1⟩

/-- C8: on startup with a persisted snapshot whose `current` is
non-null, `loadState` pushes the interrupted item back to the front of
the pending queue and resets `current`; the restored queue being
non-empty, the auto-resume timer is armed, and when it fires with
nothing current and no transition in flight the transition procedure
runs and the interrupted item starts playing. -/
theorem loadState_restores_interrupted_item
    (f : Nat) (env : Env) (st0 : Persist.QSt3) (snap : Persist.QueueState)
    (it : EnqueuedItem) (fp : String) (d : Int)
    (hcur : snap.current = some it)
    (hproc : st0.isProcessing = false)
    (hens : env.ensure it = .ok fp)
    (hdur : env.getDuration fp = .ok d)
    (hok : env.streamOk fp = true) :
    (Persist.loadState (some snap) st0).queue = it :: snap.queue ∧
    (Persist.loadState (some snap) st0).current = none ∧
    (Persist.loadState (some snap) st0).resumeScheduled = true ∧
    (Persist.resumeFire (f + 1) env (Persist.loadState (some snap) st0)).current =
      some it ∧
    (Persist.resumeFire (f + 1) env (Persist.loadState (some snap) st0)).queue =
      snap.queue ∧
    (Persist.resumeFire (f + 1) env (Persist.loadState (some snap) st0)).timer =
      some ((d + 2) * 1000) := by
  have hload : Persist.loadState (some snap) st0 =
      { st0 with
        queue := it :: snap.queue
        current := none
        lastPlayedVideoId := snap.lastPlayedVideoId
        autoPlaylist :=
          { st0.autoPlaylist with
            useYouTubeSuggestions := snap.suggestionsEnabled }
        resumeScheduled := true } := by
    simp [Persist.loadState, hcur]
  rw [hload]
  have hfire : Persist.resumeFire (f + 1) env
      ({ st0 with
        queue := it :: snap.queue
        current := none
        lastPlayedVideoId := snap.lastPlayedVideoId
        autoPlaylist :=
          { st0.autoPlaylist with
            useYouTubeSuggestions := snap.suggestionsEnabled }
        resumeScheduled := true } : Persist.QSt3) =
      Persist.playNext3 (f + 1) env
        { st0 with
          queue := it :: snap.queue
          current := none
          lastPlayedVideoId := snap.lastPlayedVideoId
          autoPlaylist :=
            { st0.autoPlaylist with
              useYouTubeSuggestions := snap.suggestionsEnabled }
          resumeScheduled := true } := by
    simp [Persist.resumeFire, hproc]
  rw [hfire]
  have h := playNext3_success_proj f env
    { st0 with
      queue := it :: snap.queue
      current := none
      lastPlayedVideoId := snap.lastPlayedVideoId
      autoPlaylist :=
        { st0.autoPlaylist with
          useYouTubeSuggestions := snap.suggestionsEnabled }
      resumeScheduled := true }
    it snap.queue fp d hproc rfl hens hdur hok
  exact ⟨rfl, rfl, rfl, h.1, h.2.1, h.2.2.1⟩

/-- Witness for C8: restoring a snapshot whose interrupted current item
is `wItemGood` resumes playback of that item. -/
theorem loadState_restores_interrupted_item_witness :
    wSnap.current = some wItemGood ∧
    wSt3.isProcessing = false ∧
    wEnv.ensure wItemGood = .ok "/media/good.mp3" ∧
    wEnv.getDuration "/media/good.mp3" = .ok 180 ∧
    wEnv.streamOk "/media/good.mp3" = true ∧
    ((Persist.loadState (some wSnap) wSt3).queue = wItemGood :: wSnap.queue ∧
      (Persist.loadState (some wSnap) wSt3).current = none ∧
      (Persist.loadState (some wSnap) wSt3).resumeScheduled = true ∧
      (Persist.resumeFire 1 wEnv (Persist.loadState (some wSnap) wSt3)).current =
        some wItemGood ∧
      (Persist.resumeFire 1 wEnv (Persist.loadState (some wSnap) wSt3)).queue =
        wSnap.queue ∧
      (Persist.resumeFire 1 wEnv (Persist.loadState (some wSnap) wSt3)).timer =
        some ((180 + 2) * 1000)) :=
  ⟨rfl, rfl, rfl, rfl, rfl,
    loadState_restores_interrupted_item 0 wEnv wSt3 wSnap wItemGood
      "/media/good.mp3" 180 rfl rfl rfl rfl rfl⟩

/-- C9: for an audio-extension file `streamFile` builds the fixed
1280x720 synthesized-video argument list: the `loop` parameter and the
selected quality preset are ignored, `-shortest` is present and
`-stream_loop` is absent — so an audio filler asset started with
`loop = true` plays once and the process then exits. -/
theorem streamFile_audio_args_ignore_loop_and_quality
    (q q' : String) (ut : Bool) (th : Option String)
    (fp : String) (l l' : Bool) (url : String)
    (ha : isAudioFile fp = true)
    (hurl : url ≠ "-stream_loop")
    (hth : ∀ u, th = some u → u ≠ "-stream_loop") :
    buildStreamArgs q ut th fp l url = buildStreamArgs q' ut th fp l' url ∧
    "-shortest" ∈ buildStreamArgs q ut th fp l url ∧
    "-vf" ∈ buildStreamArgs q ut th fp l url ∧
    scalePad 1280 720 ∈ buildStreamArgs q ut th fp l url ∧
    "-stream_loop" ∉ buildStreamArgs q ut th fp l url := by
  have hfp : ("-stream_loop" : String) ≠ fp := by
    intro hx
    rw [← hx] at ha
    exact absurd ha (by decide)
  have hurl' : ("-stream_loop" : String) ≠ url := fun h => hurl h.symm
  have hsp : ("-stream_loop" : String) ≠ scalePad 1280 720 := by decide
  simp only [buildStreamArgs, ha, if_true]
  cases ut with
  | false =>
    simp [lavfiBlackSource, hfp, hurl', hsp]
  | true =>
    cases th with
    | none => simp [lavfiBlackSource, hfp, hurl', hsp]
    | some u =>
      have hu : ("-stream_loop" : String) ≠ u :=
        fun h => (hth u rfl) h.symm
      simp [hfp, hurl', hu, hsp]

/-- Witness for C9: an `.mp3` file with a thumbnail background, quality
`1080p` vs `480p`, and `loop` true vs false. -/
theorem streamFile_audio_args_ignore_loop_and_quality_witness :
    isAudioFile "/media/song.mp3" = true ∧
    ("rtmps://example.com/live" : String) ≠ "-stream_loop" ∧
    (∀ u, (some "https://i3.ytimg.com/vi/abc/hqdefault.jpg" : Option String) =
      some u → u ≠ "-stream_loop") ∧
    (buildStreamArgs "1080p" true (some "https://i3.ytimg.com/vi/abc/hqdefault.jpg")
        "/media/song.mp3" true "rtmps://example.com/live" =
      buildStreamArgs "480p" true (some "https://i3.ytimg.com/vi/abc/hqdefault.jpg")
        "/media/song.mp3" false "rtmps://example.com/live" ∧
      "-shortest" ∈ buildStreamArgs "1080p" true
        (some "https://i3.ytimg.com/vi/abc/hqdefault.jpg")
        "/media/song.mp3" true "rtmps://example.com/live" ∧
      "-vf" ∈ buildStreamArgs "1080p" true
        (some "https://i3.ytimg.com/vi/abc/hqdefault.jpg")
        "/media/song.mp3" true "rtmps://example.com/live" ∧
      scalePad 1280 720 ∈ buildStreamArgs "1080p" true
        (some "https://i3.ytimg.com/vi/abc/hqdefault.jpg")
        "/media/song.mp3" true "rtmps://example.com/live" ∧
      "-stream_loop" ∉ buildStreamArgs "1080p" true
        (some "https://i3.ytimg.com/vi/abc/hqdefault.jpg")
        "/media/song.mp3" true "rtmps://example.com/live") :=
  ⟨by decide, by decide, fun u hu => by cases hu; decide,
    streamFile_audio_args_ignore_loop_and_quality "1080p" "480p" true
      (some "https://i3.ytimg.com/vi/abc/hqdefault.jpg") "/media/song.mp3"
      true false "rtmps://example.com/live" (by decide) (by decide)
      (fun u hu => by cases hu; decide)⟩

end MusicTwitch
